import Mathlib

/-!
Formal model of the toll-highway server (`src/server.py`).

The server keeps a shared dictionary `vehicles` (plate ↦ entry toll point),
a completed-vehicle counter `total_vehicles` and an accumulated fee total
`total_fees`, all created in `main` (lines 152-154).  Each client connection
delivers one message `TYPE,plate,point`; `handle_client` (lines 36-102)
parses it, validates it, and applies the ENTRY or EXIT transition under a
lock.  `stats_display` (lines 104-123) periodically reads the shared state.

Modelling conventions:
* Python strings are Lean `String`s; the byte-level socket I/O is out of
  scope, `handle_message` maps the received text and the current state to
  the (optional) response text and the next state.
* Python floats are modelled as exact rationals.  Every fee arising here is
  a nonnegative integer times `RATE = 1.0`, hence exact in a double until
  2^53; the model ignores double-precision rounding beyond that.
* The Python dict is modelled as an association list with the dict's
  first-match lookup; `handle_client` only inserts a key after checking it
  is absent, so keys stay distinct.
* The lock discipline is modelled separately as lists of primitive actions
  (acquire/release/read/write/send) transcribed from the source, with a
  checker that every shared access happens while the lock is held.
-/

namespace TollServer

/-- ASCII whitespace characters stripped by Python's `str.strip()` and by
`int()` (Unicode whitespace beyond ASCII is not modelled). -/
def isPySpace (c : Char) : Bool :=
  c = ' ' || c = '\t' || c = '\n' || c = '\x0b' || c = '\x0c' || c = '\r'

/-- Both-ends whitespace strip on a character list. -/
def stripList (l : List Char) : List Char :=
  ((l.dropWhile isPySpace).reverse.dropWhile isPySpace).reverse

/-- Python `str.strip()` (line 46 of `server.py`). -/
def pyStrip (s : String) : String := String.mk (stripList s.data)

/-- Helper for `pySplit`: scans the characters, accumulating the current
field in reverse.  Transcribes Python `str.split(sep)` for a single-character
separator: every occurrence of `sep` ends a field, and the empty string
splits into one empty field. -/
def splitAux (sep : Char) : List Char → List Char → List (List Char)
  | [], acc => [acc.reverse]
  | c :: cs, acc =>
    if c = sep then acc.reverse :: splitAux sep cs []
    else splitAux sep cs (c :: acc)

/-- Python `data.split(',')` (line 49 of `server.py`). -/
def pySplit (sep : Char) (s : String) : List String :=
  (splitAux sep s.data []).map String.mk

/-- Digit-run scanner after the optional sign, allowing a single underscore
between two digits, as Python's `int()` literal grammar does.  `acc` is the
value parsed so far. -/
def pyDigitsAux : List Char → Nat → Option Nat
  | [], acc => some acc
  | '_' :: c :: cs, acc =>
    if c.isDigit then pyDigitsAux cs (acc * 10 + (c.toNat - 48)) else none
  | ['_'], _ => none
  | c :: cs, acc =>
    if c.isDigit then pyDigitsAux cs (acc * 10 + (c.toNat - 48)) else none

/-- Nonempty digit run: the first character must be a digit. -/
def pyDigits : List Char → Option Nat
  | [] => none
  | c :: cs => if c.isDigit then pyDigitsAux cs (c.toNat - 48) else none

/-- Python `int(point_str)` (line 58 of `server.py`) on ASCII input:
strips whitespace, allows one optional sign, then a nonempty digit run with
optional single underscores between digits.  Non-ASCII digits are not
modelled.  Returns `none` where Python raises `ValueError`. -/
def pyInt (s : String) : Option Int :=
  match stripList s.data with
  | '-' :: rest => (pyDigits rest).map fun n => -(n : Int)
  | '+' :: rest => (pyDigits rest).map fun n => (n : Int)
  | l => (pyDigits l).map fun n => (n : Int)

/-- Python `str.upper()` (lines 65 and 78) restricted to ASCII case
mapping. -/
def pyUpper (s : String) : String := String.mk (s.data.map Char.toUpper)

/-- Fixed toll fee rate per toll-point difference: `RATE = 1.0`
(line 8 of `server.py`). -/
def RATE : ℚ := 1

/-- Fee computation transcribed from lines 87-88 of `server.py`:
`distance = abs(point - entry_point); fee = distance * RATE`. -/
def fee (entry_point point : Int) : ℚ :=
  ((point - entry_point).natAbs : ℚ) * RATE

/-- Python `str()` of a float whose value is the integer `q.num` (the only
case reached here: every fee is an integer multiple of `RATE = 1.0`):
Python renders such a float as the integer followed by `.0`, e.g. `7.0`.
(The scientific notation Python switches to at 1e16 is not modelled.) -/
def formatPyFloat (q : ℚ) : String := toString q.num ++ ".0"

/-- The shared server state: `vehicles` (`manager.dict()`, plate ↦ entry
point), `total_vehicles` (`manager.Value('i', 0)`) and `total_fees`
(`manager.Value('d', 0.0)`), lines 152-154 of `server.py`. -/
structure ServerState where
  vehicles : List (String × Int)
  total_vehicles : Nat
  total_fees : ℚ
deriving DecidableEq, Repr

/-- The state created at server startup (lines 152-154). -/
def initialState : ServerState := ⟨[], 0, 0⟩

/-- Python dict lookup, also used for membership `plate in vehicles`
(first matching key). -/
def dictLookup (k : String) : List (String × Int) → Option Int
  | [] => none
  | (k', v) :: rest => if k' = k then some v else dictLookup k rest

/-- Python dict assignment `vehicles[plate] = point` (line 73): replaces in
place when the key is present, else appends in insertion order. -/
def dictSet (k : String) (v : Int) : List (String × Int) → List (String × Int)
  | [] => [(k, v)]
  | (k', v') :: rest =>
    if k' = k then (k, v) :: rest else (k', v') :: dictSet k v rest

/-- Key removal half of Python `vehicles.pop(plate)` (line 86); the popped
value is read with `dictLookup` at the call site. -/
def dictPop (k : String) : List (String × Int) → List (String × Int)
  | [] => []
  | (k', v') :: rest =>
    if k' = k then rest else (k', v') :: dictPop k rest

/-- The ENTRY branch of `handle_client` (lines 65-76 of `server.py`):
reject a plate already present, otherwise record it at `point`. -/
def tryEnter (plate : String) (point : Int) (st : ServerState) :
    String × ServerState :=
  match dictLookup plate st.vehicles with
  | some _ => ("ERROR: Vehicle " ++ plate ++ " already in highway", st)
  | none =>
      ("Vehicle " ++ plate ++ " entered at point " ++ toString point,
       { st with vehicles := dictSet plate point st.vehicles })

/-- The EXIT branch of `handle_client` (lines 78-93 of `server.py`):
reject an absent plate, otherwise pop its entry point, charge
`abs(point - entry_point) * RATE`, and bump both aggregates. -/
def tryExit (plate : String) (point : Int) (st : ServerState) :
    String × ServerState :=
  match dictLookup plate st.vehicles with
  | none => ("ERROR: Vehicle " ++ plate ++ " not found in highway", st)
  | some entry_point =>
      ("Vehicle " ++ plate ++ " exited at point " ++ toString point ++
         ". Fee: " ++ formatPyFloat (fee entry_point point),
       { vehicles := dictPop plate st.vehicles,
         total_vehicles := st.total_vehicles + 1,
         total_fees := st.total_fees + fee entry_point point })

/-- Dispatch on an already-split message (lines 56-98 of `server.py`):
parse the toll point, then dispatch on the uppercased transaction type. -/
def processParts (transaction_type plate point_str : String)
    (st : ServerState) : Option String × ServerState :=
  match pyInt point_str with
  | none => (some "ERROR: Invalid toll point", st)
  | some point =>
      if pyUpper transaction_type = "ENTRY" then
        let r := tryEnter plate point st
        (some r.1, r.2)
      else if pyUpper transaction_type = "EXIT" then
        let r := tryExit plate point st
        (some r.1, r.2)
      else (some "ERROR: Unknown transaction type", st)

/-- One request handled by `handle_client` (lines 44-98 of `server.py`):
strip the received text; an empty message is dropped with no response
(line 47-48); otherwise split on commas, requiring exactly three fields
(lines 49-54), and dispatch.  The first component is the response sent
back, `none` when nothing is sent. -/
def handle_message (raw : String) (st : ServerState) :
    Option String × ServerState :=
  let data := pyStrip raw
  if data = "" then (none, st)
  else
    match pySplit ',' data with
    | [transaction_type, plate, point_str] =>
        processParts transaction_type plate point_str st
    | _ => (some "ERROR: Invalid message format", st)

/-- One ENTRY/EXIT round trip for one plate, used to state the aggregate
bookkeeping property: enter at the first point, then exit at the second. -/
def runPairs : List (String × Int × Int) → ServerState → ServerState
  | [], st => st
  | (p, a, b) :: rest, st =>
      runPairs rest (tryExit p b (tryEnter p a st).2).2

/-- Primitive actions on the shared resources, for the lock-discipline
model: lock acquire/release, reads/writes of the three shared objects, and
a network send. -/
inductive LockAction where
  | acquire | release
  | readVehicles | writeVehicles
  | readCount | writeCount
  | readFees | writeFees
  | send
deriving DecidableEq, Repr

/-- Whether an action touches the shared ledger state. -/
def sharedAccess : LockAction → Bool
  | .readVehicles | .writeVehicles | .readCount | .writeCount
  | .readFees | .writeFees => true
  | _ => false

/-- Checks that every shared access in the trace happens while the lock is
held (`held` is the lock state on entry). -/
def allLocked : List LockAction → Bool → Bool
  | [], _ => true
  | .acquire :: rest, _ => allLocked rest true
  | .release :: rest, _ => allLocked rest false
  | a :: rest, held => (!sharedAccess a || held) && allLocked rest held

/-- Action trace of the ENTRY branch, lines 65-76 of `server.py`.
`duplicate = true`: membership check, error sent inside the `with lock`
block (the `return` releases on exit).  `duplicate = false`: membership
check and insert under the lock, response sent after release. -/
def entryTrace (duplicate : Bool) : List LockAction :=
  if duplicate then
    [.acquire, .readVehicles, .send, .release]
  else
    [.acquire, .readVehicles, .writeVehicles, .release, .send]

/-- Action trace of the EXIT branch, lines 78-93 of `server.py`.
`found = false`: membership check, error sent inside the lock block.
`found = true`: pop, `total_fees.value += fee`, `total_vehicles.value += 1`
under the lock, response sent after release. -/
def exitTrace (found : Bool) : List LockAction :=
  if found then
    [.acquire, .readVehicles, .writeVehicles, .readFees, .writeFees,
     .readCount, .writeCount, .release, .send]
  else
    [.acquire, .readVehicles, .send, .release]

/-- Action trace of one `stats_display` tick, lines 113-118 of `server.py`:
`len(vehicles)`, `total_vehicles.value`, `total_fees.value` — with no lock
acquisition anywhere in `stats_display`. -/
def statsTrace : List LockAction :=
  [.readVehicles, .readCount, .readFees]

/-! Basic lemmas about the model -/

lemma fee_def (e x : Int) : fee e x = ((x - e).natAbs : ℚ) := by
  simp [fee, RATE]

lemma fee_nonneg (e x : Int) : 0 ≤ fee e x := by
  rw [fee_def]; exact Nat.cast_nonneg _

lemma dictLookup_dictSet_self (k : String) (v : Int)
    (d : List (String × Int)) : dictLookup k (dictSet k v d) = some v := by
  induction d with
  | nil => simp [dictSet, dictLookup]
  | cons hd t ih =>
      obtain ⟨k', v'⟩ := hd
      by_cases hk : k' = k
      · subst hk; simp [dictSet, dictLookup]
      · simp [dictSet, dictLookup, hk, ih]

lemma tryEnter_absent {p : String} {pt : Int} {st : ServerState}
    (h : dictLookup p st.vehicles = none) :
    tryEnter p pt st =
      ("Vehicle " ++ p ++ " entered at point " ++ toString pt,
       { st with vehicles := dictSet p pt st.vehicles }) := by
  simp [tryEnter, h]

lemma tryEnter_present {p : String} {pt e : Int} {st : ServerState}
    (h : dictLookup p st.vehicles = some e) :
    tryEnter p pt st =
      ("ERROR: Vehicle " ++ p ++ " already in highway", st) := by
  simp [tryEnter, h]

lemma tryExit_absent {p : String} {pt : Int} {st : ServerState}
    (h : dictLookup p st.vehicles = none) :
    tryExit p pt st =
      ("ERROR: Vehicle " ++ p ++ " not found in highway", st) := by
  simp [tryExit, h]

lemma tryExit_present {p : String} {pt e : Int} {st : ServerState}
    (h : dictLookup p st.vehicles = some e) :
    tryExit p pt st =
      ("Vehicle " ++ p ++ " exited at point " ++ toString pt ++
         ". Fee: " ++ formatPyFloat (fee e pt),
       ⟨dictPop p st.vehicles, st.total_vehicles + 1,
        st.total_fees + fee e pt⟩) := by
  simp [tryExit, h]

lemma processParts_entry (t p s : String) {pt : Int}
    (st : ServerState) (ht : pyUpper t = "ENTRY") (hs : pyInt s = some pt) :
    processParts t p s st =
      (some (tryEnter p pt st).1, (tryEnter p pt st).2) := by
  simp [processParts, ht, hs]

lemma processParts_exit (t p s : String) {pt : Int}
    (st : ServerState) (ht : pyUpper t = "EXIT") (hs : pyInt s = some pt) :
    processParts t p s st =
      (some (tryExit p pt st).1, (tryExit p pt st).2) := by
  have : pyUpper t ≠ "ENTRY" := by rw [ht]; decide
  simp [processParts, ht, hs, this]

lemma handle_message_eq (raw : String) (st : ServerState)
    (h0 : pyStrip raw ≠ "") :
    handle_message raw st =
      match pySplit ',' (pyStrip raw) with
      | [transaction_type, plate, point_str] =>
          processParts transaction_type plate point_str st
      | _ => (some "ERROR: Invalid message format", st) := by
  simp [handle_message, h0]

lemma runPairs_spec (l : List (String × Int × Int)) :
    ∀ st : ServerState, st.vehicles = [] →
      runPairs l st =
        ⟨[], st.total_vehicles + l.length,
         st.total_fees + (l.map fun x => fee x.2.1 x.2.2).sum⟩ := by
  induction l with
  | nil =>
      intro st hv
      obtain ⟨v, tv, tf⟩ := st
      simp only at hv
      subst hv
      simp [runPairs]
  | cons hd tail ih =>
      intro st hv
      obtain ⟨p, a, b⟩ := hd
      have he : dictLookup p st.vehicles = none := by rw [hv]; rfl
      rw [runPairs, tryEnter_absent he]
      have h2 : dictLookup p (dictSet p a st.vehicles) = some a :=
        dictLookup_dictSet_self ..
      rw [@tryExit_present p b a { st with vehicles := dictSet p a st.vehicles } h2]
      rw [ih _ (by simp [hv, dictSet, dictPop])]
      simp only [List.map_cons, List.sum_cons, List.length_cons,
        ServerState.mk.injEq]
      refine ⟨trivial, by omega, by ring⟩

/-! Claims -/

/-- C1: for every plate `p` and integer toll points `a` and `b`, a
successful `ENTRY(p, a)` followed immediately by `EXIT(p, b)` succeeds, the
fee charged equals `|b - a| * RATE` with `RATE = 1.0`, and the success
responses are exactly `Vehicle {plate} entered at point {point}` and
`Vehicle {plate} exited at point {point}. Fee: {fee}`. -/
theorem entry_then_exit_fee (p : String) (a b : Int) (st : ServerState)
    (h : dictLookup p st.vehicles = none) :
    tryEnter p a st =
      ("Vehicle " ++ p ++ " entered at point " ++ toString a,
       { st with vehicles := dictSet p a st.vehicles }) ∧
    (tryExit p b (tryEnter p a st).2).1 =
      "Vehicle " ++ p ++ " exited at point " ++ toString b ++
        ". Fee: " ++ formatPyFloat (fee a b) ∧
    (tryExit p b (tryEnter p a st).2).2.total_fees =
      st.total_fees + fee a b ∧
    fee a b = ((|b - a| : ℤ) : ℚ) * RATE ∧ RATE = 1 := by
  have h1 := @tryEnter_absent p a st h
  have h2 : dictLookup p (tryEnter p a st).2.vehicles = some a := by
    rw [h1]; exact dictLookup_dictSet_self ..
  have h3 := @tryExit_present p b a (tryEnter p a st).2 h2
  refine ⟨h1, by rw [h3], by rw [h3, h1], ?_, rfl⟩
  rw [fee_def, Int.abs_eq_natAbs, Int.cast_natCast]
  show ((b - a).natAbs : ℚ) = ((b - a).natAbs : ℚ) * 1
  rw [mul_one]

/-- C1 witness: plate `ABC123` enters at point 3 and exits at point 10 from
the initial state; the accumulated fee grows by `fee 3 10`. -/
theorem entry_then_exit_fee_witness :
    (tryExit "ABC123" 10 (tryEnter "ABC123" 3 initialState).2).2.total_fees =
      initialState.total_fees + fee 3 10 :=
  (entry_then_exit_fee "ABC123" 3 10 initialState rfl).2.2.1

/-- C2: a successful EXIT removes the plate, bumps `total_vehicles` by one
and `total_fees` by exactly the computed fee, in one transition performed
entirely inside the lock-held critical section; consequently `N` successful
ENTRY/EXIT pairs from the initial state leave `total_vehicles = N` and
`total_fees` equal to the sum of the individual fees. -/
theorem exit_atomic_update_and_sum :
    (∀ (p : String) (b e : Int) (st : ServerState),
        dictLookup p st.vehicles = some e →
        tryExit p b st =
          ("Vehicle " ++ p ++ " exited at point " ++ toString b ++
             ". Fee: " ++ formatPyFloat (fee e b),
           ⟨dictPop p st.vehicles, st.total_vehicles + 1,
            st.total_fees + fee e b⟩)) ∧
    (∀ l : List (String × Int × Int),
        (runPairs l initialState).total_vehicles = l.length ∧
        (runPairs l initialState).total_fees =
          (l.map fun x => fee x.2.1 x.2.2).sum) ∧
    allLocked (exitTrace true) false = true := by
  refine ⟨fun p b e st h => tryExit_present h, fun l => ?_, by decide⟩
  rw [runPairs_spec l initialState rfl]
  exact ⟨by simp [initialState], by simp [initialState]⟩

/-- C2 witness: with `A` on the highway since point 3, an EXIT at point 10
removes it and bumps both aggregates. -/
theorem exit_atomic_update_and_sum_witness :
    tryExit "A" 10 ⟨[("A", 3)], 4, 9⟩ =
      ("Vehicle A exited at point 10. Fee: " ++ formatPyFloat (fee 3 10),
       ⟨dictPop "A" [("A", 3)], 4 + 1, 9 + fee 3 10⟩) :=
  exit_atomic_update_and_sum.1 "A" 10 3 ⟨[("A", 3)], 4, 9⟩ rfl

/-- C3: whenever plate `p` is present, an ENTRY for `p` fails with the
`DuplicateEntry` response and returns the state completely unchanged. -/
theorem duplicate_entry_rejected (p : String) (pt e : Int)
    (st : ServerState) (h : dictLookup p st.vehicles = some e) :
    tryEnter p pt st =
      ("ERROR: Vehicle " ++ p ++ " already in highway", st) := by
  simp [tryEnter, h]

/-- C3 witness: re-entry of `ABC123` (stored entry point 3) at point 5 is
rejected and the state `⟨[("ABC123", 3)], 2, 7⟩` is returned unchanged. -/
theorem duplicate_entry_rejected_witness :
    tryEnter "ABC123" 5 ⟨[("ABC123", 3)], 2, 7⟩ =
      ("ERROR: Vehicle ABC123 already in highway",
       ⟨[("ABC123", 3)], 2, 7⟩) :=
  duplicate_entry_rejected "ABC123" 5 3 ⟨[("ABC123", 3)], 2, 7⟩ rfl

/-- C4: whenever plate `p` is absent, an EXIT for `p` fails with the
`UnknownVehicle` response and returns the state completely unchanged. -/
theorem unknown_exit_rejected (p : String) (pt : Int) (st : ServerState)
    (h : dictLookup p st.vehicles = none) :
    tryExit p pt st =
      ("ERROR: Vehicle " ++ p ++ " not found in highway", st) := by
  simp [tryExit, h]

/-- C4 witness: an EXIT for `GHOST` at point 4 in a state that records only
`ABC123` is rejected with the state returned unchanged. -/
theorem unknown_exit_rejected_witness :
    tryExit "GHOST" 4 ⟨[("ABC123", 3)], 2, 7⟩ =
      ("ERROR: Vehicle GHOST not found in highway",
       ⟨[("ABC123", 3)], 2, 7⟩) :=
  unknown_exit_rejected "GHOST" 4 ⟨[("ABC123", 3)], 2, 7⟩ rfl

/-! Further helper lemmas -/

lemma processParts_badpoint {s : String} (t p : String) (st : ServerState)
    (hs : pyInt s = none) :
    processParts t p s st = (some "ERROR: Invalid toll point", st) := by
  simp [processParts, hs]

lemma processParts_unknown {t : String} (p s : String) {pt : Int}
    (st : ServerState) (hs : pyInt s = some pt)
    (h1 : pyUpper t ≠ "ENTRY") (h2 : pyUpper t ≠ "EXIT") :
    processParts t p s st =
      (some "ERROR: Unknown transaction type", st) := by
  simp [processParts, hs, h1, h2]

lemma processParts_mono (t p s : String) (st : ServerState) :
    st.total_vehicles ≤ (processParts t p s st).2.total_vehicles ∧
    st.total_fees ≤ (processParts t p s st).2.total_fees := by
  cases hpi : pyInt s with
  | none => rw [processParts_badpoint t p st hpi]; exact ⟨le_refl _, le_refl _⟩
  | some pt =>
      by_cases h1 : pyUpper t = "ENTRY"
      · rw [processParts_entry t p s st h1 hpi]
        cases hl : dictLookup p st.vehicles with
        | none => rw [tryEnter_absent hl]; exact ⟨le_refl _, le_refl _⟩
        | some e => rw [tryEnter_present hl]; exact ⟨le_refl _, le_refl _⟩
      · by_cases h2 : pyUpper t = "EXIT"
        · rw [processParts_exit t p s st h2 hpi]
          cases hl : dictLookup p st.vehicles with
          | none => rw [tryExit_absent hl]; exact ⟨le_refl _, le_refl _⟩
          | some e =>
              rw [tryExit_present hl]
              exact ⟨Nat.le_add_right _ _,
                le_add_of_nonneg_right (fee_nonneg e pt)⟩
        · rw [processParts_unknown p s st hpi h1 h2]
          exact ⟨le_refl _, le_refl _⟩

lemma processParts_isSome (t p s : String) (st : ServerState) :
    (processParts t p s st).1.isSome = true := by
  cases hpi : pyInt s with
  | none => rw [processParts_badpoint t p st hpi]; rfl
  | some pt =>
      by_cases h1 : pyUpper t = "ENTRY"
      · rw [processParts_entry t p s st h1 hpi]; rfl
      · by_cases h2 : pyUpper t = "EXIT"
        · rw [processParts_exit t p s st h2 hpi]; rfl
        · rw [processParts_unknown p s st hpi h1 h2]; rfl

lemma errVehicle_split (x : String) :
    "ERROR: Vehicle " ++ x = "ERROR: " ++ ("Vehicle " ++ x) := by
  rw [← String.append_assoc]
  have h : ("ERROR: " : String) ++ "Vehicle " = "ERROR: Vehicle " := by decide
  rw [h]

lemma processParts_response_shape (t p s : String) (st : ServerState)
    (r : String) (hr : (processParts t p s st).1 = some r) :
    (∃ u, r = "ERROR: " ++ u) ∨ (∃ u, r = "Vehicle " ++ u) := by
  cases hpi : pyInt s with
  | none =>
      rw [processParts_badpoint t p st hpi] at hr
      simp only [Option.some.injEq] at hr
      exact Or.inl ⟨"Invalid toll point", hr.symm ▸ rfl⟩
  | some pt =>
      by_cases h1 : pyUpper t = "ENTRY"
      · rw [processParts_entry t p s st h1 hpi] at hr
        cases hl : dictLookup p st.vehicles with
        | some e =>
            rw [tryEnter_present hl] at hr
            simp only [Option.some.injEq] at hr
            refine Or.inl ⟨"Vehicle " ++ (p ++ " already in highway"), ?_⟩
            rw [← hr, String.append_assoc]
            exact errVehicle_split _
        | none =>
            rw [tryEnter_absent hl] at hr
            simp only [Option.some.injEq] at hr
            refine Or.inr ⟨p ++ (" entered at point " ++ toString pt), ?_⟩
            rw [← hr]
            simp [String.append_assoc]
      · by_cases h2 : pyUpper t = "EXIT"
        · rw [processParts_exit t p s st h2 hpi] at hr
          cases hl : dictLookup p st.vehicles with
          | some e =>
              rw [tryExit_present hl] at hr
              simp only [Option.some.injEq] at hr
              refine Or.inr ⟨p ++ (" exited at point " ++ (toString pt ++
                (". Fee: " ++ formatPyFloat (fee e pt)))), ?_⟩
              rw [← hr]
              simp [String.append_assoc]
          | none =>
              rw [tryExit_absent hl] at hr
              simp only [Option.some.injEq] at hr
              refine Or.inl ⟨"Vehicle " ++ (p ++ " not found in highway"), ?_⟩
              rw [← hr, String.append_assoc]
              exact errVehicle_split _
        · rw [processParts_unknown p s st hpi h1 h2] at hr
          simp only [Option.some.injEq] at hr
          exact Or.inl ⟨"Unknown transaction type", hr.symm ▸ rfl⟩

lemma errVehicle_ne_invalid (x : String) :
    "ERROR: Vehicle " ++ x ≠ "ERROR: Invalid toll point" := by
  intro h
  have h7 := congrArg (fun s => s.data[7]?) h
  simp only [String.data_append] at h7
  rw [List.getElem?_append_left
    (by decide : (7 : ℕ) < ("ERROR: Vehicle " : String).data.length)] at h7
  exact absurd h7 (by decide)

lemma vehicle_ne_invalid (x : String) :
    "Vehicle " ++ x ≠ "ERROR: Invalid toll point" := by
  intro h
  have h0 := congrArg (fun s => s.data[0]?) h
  simp only [String.data_append] at h0
  rw [List.getElem?_append_left
    (by decide : (0 : ℕ) < ("Vehicle " : String).data.length)] at h0
  exact absurd h0 (by decide)

lemma processParts_ne_invalid_toll {s : String} (t p : String) {n : Int}
    (st : ServerState) (hs : pyInt s = some n) :
    (processParts t p s st).1 ≠ some "ERROR: Invalid toll point" := by
  by_cases h1 : pyUpper t = "ENTRY"
  · rw [processParts_entry t p s st h1 hs]
    cases hl : dictLookup p st.vehicles with
    | some e =>
        rw [tryEnter_present hl]
        intro hh
        simp only [Option.some.injEq] at hh
        exact errVehicle_ne_invalid (p ++ " already in highway")
          (by rw [← String.append_assoc]; exact hh)
    | none =>
        rw [tryEnter_absent hl]
        intro hh
        simp only [Option.some.injEq] at hh
        exact vehicle_ne_invalid (p ++ (" entered at point " ++ toString n))
          (by rw [← String.append_assoc, ← String.append_assoc]; exact hh)
  · by_cases h2 : pyUpper t = "EXIT"
    · rw [processParts_exit t p s st h2 hs]
      cases hl : dictLookup p st.vehicles with
      | some e =>
          rw [tryExit_present hl]
          intro hh
          simp only [Option.some.injEq] at hh
          exact vehicle_ne_invalid (p ++ (" exited at point " ++
            (toString n ++ (". Fee: " ++ formatPyFloat (fee e n)))))
            (by rw [← String.append_assoc, ← String.append_assoc,
                    ← String.append_assoc, ← String.append_assoc]; exact hh)
      | none =>
          rw [tryExit_absent hl]
          intro hh
          simp only [Option.some.injEq] at hh
          exact errVehicle_ne_invalid (p ++ " not found in highway")
            (by rw [← String.append_assoc]; exact hh)
    · rw [processParts_unknown p s st hs h1 h2]
      intro hh
      simp only [Option.some.injEq] at hh
      exact absurd hh (by decide)

/-- C8: no transaction ever decreases `total_vehicles` or `total_fees`. -/
theorem counters_monotone (raw : String) (st : ServerState) :
    st.total_vehicles ≤ (handle_message raw st).2.total_vehicles ∧
    st.total_fees ≤ (handle_message raw st).2.total_fees := by
  by_cases h0 : pyStrip raw = ""
  · simp [handle_message, h0]
  · rw [handle_message_eq raw st h0]
    cases hsp : pySplit ',' (pyStrip raw) with
    | nil => exact ⟨le_refl _, le_refl _⟩
    | cons t r1 =>
        cases r1 with
        | nil => exact ⟨le_refl _, le_refl _⟩
        | cons p r2 =>
            cases r2 with
            | nil => exact ⟨le_refl _, le_refl _⟩
            | cons s r3 =>
                cases r3 with
                | nil => exact processParts_mono t p s st
                | cons d r4 => exact ⟨le_refl _, le_refl _⟩

/-! Splitting and stripping lemmas for whole-message reasoning -/

lemma splitAux_append_sep (sep : Char) :
    ∀ l : List Char, sep ∉ l → ∀ rest acc : List Char,
      splitAux sep (l ++ sep :: rest) acc =
        (acc.reverse ++ l) :: splitAux sep rest []
  | [], _, rest, acc => by simp [splitAux]
  | c :: t, h, rest, acc => by
      have hc : ¬(c = sep) := by
        rintro rfl; exact h (List.mem_cons_self _ _)
      have ht : sep ∉ t := fun e => h (List.mem_cons_of_mem _ e)
      simp only [List.cons_append, splitAux, if_neg hc, List.append_eq]
      rw [splitAux_append_sep sep t ht rest (c :: acc)]
      simp

lemma splitAux_no_sep (sep : Char) :
    ∀ l : List Char, sep ∉ l → ∀ acc : List Char,
      splitAux sep l acc = [acc.reverse ++ l]
  | [], _, acc => by simp [splitAux]
  | c :: t, h, acc => by
      have hc : ¬(c = sep) := by
        rintro rfl; exact h (List.mem_cons_self _ _)
      have ht : sep ∉ t := fun e => h (List.mem_cons_of_mem _ e)
      simp only [splitAux, if_neg hc]
      rw [splitAux_no_sep sep t ht (c :: acc)]
      simp

lemma dropWhile_id_of_head (p : Char → Bool) :
    ∀ l : List Char, (∀ c, l.head? = some c → p c = false) →
      l.dropWhile p = l
  | [], _ => rfl
  | c :: t, h => by
      rw [List.dropWhile_cons_of_neg]
      simp [h c rfl]

lemma stripList_id (l : List Char)
    (h1 : ∀ c, l.head? = some c → isPySpace c = false)
    (h2 : ∀ c, l.getLast? = some c → isPySpace c = false) :
    stripList l = l := by
  rw [stripList, dropWhile_id_of_head _ _ h1,
    dropWhile_id_of_head _ _
      (fun c hc => h2 c (by rw [List.getLast?_eq_head?_reverse]; exact hc)),
    List.reverse_reverse]

lemma entry_msg_data (p : String) :
    ("ENTRY," ++ p ++ ",3").data =
      ['E', 'N', 'T', 'R', 'Y'] ++ ',' :: (p.data ++ ',' :: ['3']) := by
  rw [String.data_append, String.data_append,
    show ("ENTRY," : String).data = ['E', 'N', 'T', 'R', 'Y', ','] from rfl,
    show ((",3" : String)).data = [',', '3'] from rfl]
  simp

lemma entry_msg_data2 (p : String) :
    ("ENTRY," ++ p ++ ",3").data =
      (['E', 'N', 'T', 'R', 'Y', ','] ++ p.data ++ [',']) ++ ['3'] := by
  rw [entry_msg_data]; simp

lemma entry_msg_strip (p : String) :
    pyStrip ("ENTRY," ++ p ++ ",3") = "ENTRY," ++ p ++ ",3" := by
  rw [pyStrip, stripList_id]
  · intro c hc
    rw [entry_msg_data] at hc
    simp only [List.cons_append, List.head?_cons, Option.some.injEq] at hc
    rw [← hc]; decide
  · intro c hc
    rw [entry_msg_data2, List.getLast?_concat, Option.some.injEq] at hc
    rw [← hc]; decide

lemma entry_msg_split (p : String) (h : ',' ∉ p.data) :
    pySplit ',' ("ENTRY," ++ p ++ ",3") = ["ENTRY", p, "3"] := by
  rw [pySplit, entry_msg_data,
    splitAux_append_sep ',' ['E', 'N', 'T', 'R', 'Y'] (by decide)
      (p.data ++ ',' :: ['3']) [],
    splitAux_append_sep ',' p.data h ['3'] [],
    splitAux_no_sep ',' ['3'] (by decide) []]
  simp only [List.reverse_nil, List.nil_append, List.map_cons,
    List.map_nil]

/-! Remaining claims -/

/-- C5 counterexample: the whitespace-only request `" "` is received by the
handler and answered with no response at all (the `if not data: return`
path, lines 47-48), so not every request gets exactly one response. -/
theorem blank_request_no_response :
    (handle_message " " initialState).1 = none ∧ " " ≠ "" := by decide

/-- C5 (amended): a request that is nonempty after whitespace stripping
gets exactly one textual response, and every response sent is either a
success line starting `Vehicle ` or an error line starting `ERROR: `; a
request that strips to the empty string gets no response. -/
theorem one_response_unless_blank (raw : String) (st : ServerState) :
    ((handle_message raw st).1.isSome = true ↔ pyStrip raw ≠ "") ∧
    (∀ r, (handle_message raw st).1 = some r →
        (∃ u, r = "ERROR: " ++ u) ∨ (∃ u, r = "Vehicle " ++ u)) := by
  by_cases h0 : pyStrip raw = ""
  · constructor
    · simp [handle_message, h0]
    · intro r hr
      rw [show (handle_message raw st).1 = none by simp [handle_message, h0]]
        at hr
      exact absurd hr (by simp)
  · rw [handle_message_eq raw st h0]
    cases hsp : pySplit ',' (pyStrip raw) with
    | nil => exact ⟨by simpa using h0, fun r hr => Or.inl
        ⟨"Invalid message format", by simpa using hr.symm⟩⟩
    | cons t r1 =>
        cases r1 with
        | nil => exact ⟨by simpa using h0, fun r hr => Or.inl
            ⟨"Invalid message format", by simpa using hr.symm⟩⟩
        | cons p r2 =>
            cases r2 with
            | nil => exact ⟨by simpa using h0, fun r hr => Or.inl
                ⟨"Invalid message format", by simpa using hr.symm⟩⟩
            | cons s r3 =>
                cases r3 with
                | nil =>
                    exact ⟨by simpa [processParts_isSome t p s st] using h0,
                      fun r hr => processParts_response_shape t p s st r hr⟩
                | cons d r4 => exact ⟨by simpa using h0, fun r hr => Or.inl
                    ⟨"Invalid message format", by simpa using hr.symm⟩⟩

/-- C5 witness: the request `ENTRY,A,1` is nonblank and gets a response. -/
theorem one_response_unless_blank_witness :
    (handle_message "ENTRY,A,1" initialState).1.isSome = true :=
  (one_response_unless_blank "ENTRY,A,1" initialState).1.mpr (by decide)

/-- C6 counterexample: the empty message has comma-split field count 1, yet
it does not fail with `InvalidFormat` — it gets no response at all. -/
theorem empty_message_skips_format_error :
    (pySplit ',' (pyStrip "")).length ≠ 3 ∧
    (handle_message "" initialState).1 = none := by decide

/-- C6 (amended): for requests that are nonempty after stripping,
validation runs in the fixed order field-count, then toll-point
parseability, then transaction type; in particular a three-field message
with an unknown type and a non-integer toll point yields
`InvalidTollPoint`, not `UnknownTransactionType`. -/
theorem validation_order :
    (∀ (raw : String) (st : ServerState), pyStrip raw ≠ "" →
        (pySplit ',' (pyStrip raw)).length ≠ 3 →
        handle_message raw st = (some "ERROR: Invalid message format", st)) ∧
    (∀ (raw : String) (st : ServerState) (t p s : String),
        pySplit ',' (pyStrip raw) = [t, p, s] → pyInt s = none →
        handle_message raw st = (some "ERROR: Invalid toll point", st)) ∧
    (∀ (raw : String) (st : ServerState) (t p s : String) (n : Int),
        pySplit ',' (pyStrip raw) = [t, p, s] → pyInt s = some n →
        pyUpper t ≠ "ENTRY" → pyUpper t ≠ "EXIT" →
        handle_message raw st =
          (some "ERROR: Unknown transaction type", st)) ∧
    (∀ st : ServerState,
        handle_message "HONK,ABC123,xyz" st =
          (some "ERROR: Invalid toll point", st)) := by
  have hblank : ∀ (t p s : String),
      pySplit ',' ("" : String) = [t, p, s] → False := by
    intro t p s h
    rw [show pySplit ',' ("" : String) = [""] from rfl] at h
    simp at h
  refine ⟨?_, ?_, ?_, ?_⟩
  · intro raw st h0 hlen
    rw [handle_message_eq raw st h0]
    cases hsp : pySplit ',' (pyStrip raw) with
    | nil => rfl
    | cons t r1 =>
        cases r1 with
        | nil => rfl
        | cons p r2 =>
            cases r2 with
            | nil => rfl
            | cons s r3 =>
                cases r3 with
                | nil => rw [hsp] at hlen; simp at hlen
                | cons d r4 => rfl
  · intro raw st t p s hsp hpi
    have h0 : pyStrip raw ≠ "" := by
      intro he; rw [he] at hsp; exact hblank t p s hsp
    rw [handle_message_eq raw st h0, hsp]
    exact processParts_badpoint t p st hpi
  · intro raw st t p s n hsp hpi h1 h2
    have h0 : pyStrip raw ≠ "" := by
      intro he; rw [he] at hsp; exact hblank t p s hsp
    rw [handle_message_eq raw st h0, hsp]
    exact processParts_unknown p s st hpi h1 h2
  · intro st
    rw [show handle_message "HONK,ABC123,xyz" st =
          processParts "HONK" "ABC123" "xyz" st from rfl]
    exact processParts_badpoint "HONK" "ABC123" st rfl

/-- C6 witness: the spec's three malformed examples, from the initial
state: two fields gives `InvalidFormat`, a non-numeric toll point gives
`InvalidTollPoint`, and an unknown type gives `UnknownTransactionType`. -/
theorem validation_order_witness :
    handle_message "ENTRY,ABC123" initialState =
      (some "ERROR: Invalid message format", initialState) ∧
    handle_message "ENTRY,ABC123,notanumber" initialState =
      (some "ERROR: Invalid toll point", initialState) ∧
    handle_message "HONK,ABC123,3" initialState =
      (some "ERROR: Unknown transaction type", initialState) :=
  ⟨validation_order.1 "ENTRY,ABC123" initialState (by decide) (by decide),
   validation_order.2.1 "ENTRY,ABC123,notanumber" initialState
     "ENTRY" "ABC123" "notanumber" (by decide) (by decide),
   validation_order.2.2.1 "HONK,ABC123,3" initialState
     "HONK" "ABC123" "3" 3 (by decide) (by decide) (by decide) (by decide)⟩

/-- C7 counterexample: the Stats Reporter's snapshot is not performed
under the ledger lock: its trace contains shared-state reads, holds no
lock anywhere, and fails the every-shared-access-locked check. -/
theorem stats_snapshot_not_locked :
    allLocked statsTrace false = false ∧
    LockAction.readVehicles ∈ statsTrace ∧
    LockAction.acquire ∉ statsTrace := by decide

/-- C7 (amended): the ENTRY/EXIT branches of the transaction handler
perform all their shared-state accesses while holding the ledger lock, but
`stats_display` reads the vehicle count, `total_vehicles` and `total_fees`
without acquiring the lock at all. -/
theorem lock_discipline :
    (∀ d : Bool, allLocked (entryTrace d) false = true) ∧
    (∀ f : Bool, allLocked (exitTrace f) false = true) ∧
    allLocked statsTrace false = false := by decide

/-- C9: the server applies no plate validation: an ENTRY for any absent
plate string succeeds and inserts that string as a key, and in particular
the whole message `ENTRY,<plate>,3` succeeds for every comma-free plate,
including the empty string. -/
theorem no_plate_validation :
    (∀ (p : String) (pt : Int) (st : ServerState),
        dictLookup p st.vehicles = none →
        tryEnter p pt st =
          ("Vehicle " ++ p ++ " entered at point " ++ toString pt,
           { st with vehicles := dictSet p pt st.vehicles })) ∧
    (∀ (p : String) (st : ServerState), ',' ∉ p.data →
        dictLookup p st.vehicles = none →
        handle_message ("ENTRY," ++ p ++ ",3") st =
          (some ("Vehicle " ++ p ++ " entered at point 3"),
           { st with vehicles := dictSet p 3 st.vehicles })) := by
  refine ⟨fun p pt st h => tryEnter_absent h, fun p st hc h => ?_⟩
  have hne : pyStrip ("ENTRY," ++ p ++ ",3") ≠ "" := by
    rw [entry_msg_strip]
    intro he
    have hd := congrArg String.data he
    rw [entry_msg_data] at hd
    simp at hd
  rw [handle_message_eq _ _ hne, entry_msg_strip, entry_msg_split p hc]
  show processParts "ENTRY" p "3" st = _
  rw [processParts_entry "ENTRY" p "3" st rfl
      (show pyInt "3" = some 3 from by decide),
    tryEnter_absent h]
  simp [String.append_assoc, show toString (3 : Int) = "3" from by decide]

/-- C9 witness: the message `ENTRY,,3` with the empty plate succeeds from
the initial state and records the empty-string plate at point 3. -/
theorem no_plate_validation_witness :
    handle_message "ENTRY,,3" initialState =
      (some "Vehicle  entered at point 3", ⟨[("", 3)], 0, 0⟩) :=
  no_plate_validation.2 "" initialState (by decide) rfl

/-- C10: negative toll points are accepted by validation (any `int()`
parseable string, e.g. `-5`), both ENTRY and EXIT work with them, and the
computed fee `|exit - entry| * RATE` is nonetheless always nonnegative. -/
theorem negative_points_accepted :
    pyInt "-5" = some (-5) ∧
    (∀ (raw : String) (st : ServerState) (t p s : String) (n : Int),
        pySplit ',' (pyStrip raw) = [t, p, s] → pyInt s = some n →
        (handle_message raw st).1 ≠ some "ERROR: Invalid toll point") ∧
    (∀ st : ServerState, dictLookup "XYZ" st.vehicles = none →
        handle_message "ENTRY,XYZ,-5" st =
          (some "Vehicle XYZ entered at point -5",
           { st with vehicles := dictSet "XYZ" (-5) st.vehicles })) ∧
    (∀ st : ServerState, dictLookup "XYZ" st.vehicles = some (-5) →
        (handle_message "EXIT,XYZ,-2" st).1 =
          some "Vehicle XYZ exited at point -2. Fee: 3.0") ∧
    (∀ e x : Int, 0 ≤ fee e x) := by
  refine ⟨by decide, ?_, ?_, ?_, fun e x => fee_nonneg e x⟩
  · intro raw st t p s n hsp hpi
    have h0 : pyStrip raw ≠ "" := by
      intro he
      rw [he, show pySplit ',' ("" : String) = [""] from rfl] at hsp
      simp at hsp
    rw [handle_message_eq raw st h0, hsp]
    exact processParts_ne_invalid_toll t p st hpi
  · intro st h
    rw [show handle_message "ENTRY,XYZ,-5" st =
          processParts "ENTRY" "XYZ" "-5" st from rfl,
      processParts_entry "ENTRY" "XYZ" "-5" st rfl
        (show pyInt "-5" = some (-5) from by decide),
      tryEnter_absent h]
    simp [String.append_assoc,
      show toString (-5 : Int) = "-5" from by decide]
  · intro st h
    have hf : formatPyFloat (fee (-5) (-2)) = "3.0" := by
      rw [formatPyFloat, fee_def,
        show ((-2 : Int) - (-5)).natAbs = 3 from rfl, Rat.num_natCast]
      rfl
    rw [show handle_message "EXIT,XYZ,-2" st =
          processParts "EXIT" "XYZ" "-2" st from rfl,
      processParts_exit "EXIT" "XYZ" "-2" st rfl
        (show pyInt "-2" = some (-2) from by decide),
      tryExit_present h]
    simp [String.append_assoc, hf,
      show toString (-2 : Int) = "-2" from by decide]

/-- C10 witness: `ENTRY,XYZ,-5` succeeds from the initial state, recording
the plate at the negative point `-5`. -/
theorem negative_points_accepted_witness :
    handle_message "ENTRY,XYZ,-5" initialState =
      (some "Vehicle XYZ entered at point -5", ⟨[("XYZ", -5)], 0, 0⟩) :=
  negative_points_accepted.2.2.1 initialState rfl

end TollServer
